import Mathlib

/-!
Shallow embedding of the respoke/brightstream browser SDK façade layer:
the `webrtc.Client` façade (src/webrtc/client.js), the `webrtc.Mercury`
variant (src/unnamed/part_000), and the module-level registry helpers
(src/brightstream.js: getClient, makeUniqueID, construction/registration).

JavaScript runtime values that the façade merely stores and passes through
(media constraints, ICE server lists, settings objects) are embedded as a
small JSON-like value type with JavaScript truthiness; fallible operations
(property access on undefined, reading an undeclared identifier) return
Except.  Asynchrony is embedded by making each collaborator outcome an
explicit parameter: a promise is a value carrying its eventual outcome,
and attaching a continuation is a function of that outcome.
-/

namespace Respoke

/-- A JavaScript value, as far as the façade inspects one: the façade only
ever tests truthiness and reads named properties of the values it stores. -/
inductive JSVal where
  | undefined
  | null
  | bool (b : Bool)
  | num (n : Int)
  | str (s : String)
  | arr (elems : List JSVal)
  | obj (fields : List (String × JSVal))

/-- JavaScript truthiness: undefined, null, false, 0 and the empty string
are falsy; every object and array is truthy. -/
def truthy : JSVal → Bool
  | .undefined => false
  | .null => false
  | .bool b => b
  | .num n => n != 0
  | .str s => s != ""
  | .arr _ => true
  | .obj _ => true

/-- Property read, v.k: the named field of an object, undefined when the
field is absent or the value is not an object. -/
def JSVal.getField : JSVal → String → JSVal
  | .obj fields, k =>
    match fields.lookup k with
    | some v => v
    | none => .undefined
  | _, _ => .undefined

/-- The JavaScript `in` operator applied to an array of strings:
`key in arr` tests whether key is a PROPERTY KEY of the array object, i.e.
one of the index strings "0", "1", ... or "length" — not whether key is an
element of the array.  (Names inherited from Array.prototype would also
match; no claim here turns on those, so they are not enumerated.) -/
def jsArrayIn (key : String) (arr : List String) : Bool :=
  ((List.range arr.length).map (fun i => toString i)).contains key || key == "length"

/-- The mediaSettings record of the Client façade: default media
constraints and ICE servers (src/webrtc/client.js lines 37-51). -/
structure MediaSettings where
  constraints : JSVal
  servers : JSVal

/-- Built-in default constraints of webrtc.Client (client.js lines 38-43). -/
def defaultConstraints : JSVal :=
  .arr [.obj [
    ("video", .obj [("mandatory", .obj [("minWidth", .num 640), ("minHeight", .num 480)])]),
    ("audio", .bool true),
    ("optional", .arr []),
    ("mandatory", .obj [])]]

/-- Built-in default ICE server list of webrtc.Client (client.js lines 44-50). -/
def defaultServers : JSVal :=
  .obj [("iceServers", .arr [
    .obj [("url", .str "turn:toto@174.129.201.5:3478"), ("credential", .str "password")]])]

/-- The configuration object accepted at construction, restricted to the
options the spec recognizes; absent options are undefined. -/
structure Params where
  appId : JSVal := .undefined
  baseURL : JSVal := .undefined
  authToken : JSVal := .undefined
  constraints : JSVal := .undefined
  servers : JSVal := .undefined

/-- Modelled from the spec: a UserSession issued by the (out-of-scope)
identity provider — one authenticated binding of an account to a token,
with its own logged-in flag (spec section 6 interface). -/
structure UserSession where
  userAccount : String
  token : String
  loggedIn : Bool

/-- UserSession.isLoggedIn, modelled from the spec interface: reports the
session's loggedIn flag. -/
def UserSession.isLoggedIn (s : UserSession) : Bool :=
  s.loggedIn

/-- Modelled from the spec: a User produced by the identity provider,
wrapping a session and exposing online/offline presence (spec section 6). -/
structure User where
  uid : String
  session : UserSession
  online : Bool

/-- User.setOnline, modelled from the spec interface: marks the user
online, which triggers the presence announcement. -/
def User.setOnline (u : User) : User :=
  { u with online := true }

/-- User.getUserSession, modelled from the spec interface. -/
def User.getUserSession (u : User) : UserSession :=
  u.session

/-- A promise of a User as returned by identityProvider.login: the eventual
outcome it carries, plus an identity tag so that returning the very same
promise object is expressible. -/
structure UserPromise where
  pid : Nat
  outcome : Except String User

/-- The private state of one webrtc.Client façade: the connected flag, the
current user reference, and the mediaSettings record (client.js lines 32,
37-51, 89).  sigOpen records the observable state of the external signaling
channel so that connect's disregard for the open outcome is expressible. -/
structure ClientState where
  connected : Bool
  sigOpen : Bool
  user : Option User
  mediaSettings : MediaSettings

/-- webrtc.Client construction, the parts the claims observe: connected
starts false, user starts null, and mediaSettings takes params.constraints
and params.servers when truthy, else the built-in defaults (client.js
lines 32, 37-51, 89). -/
def ClientState.init (p : Params) : ClientState :=
  { connected := false
    sigOpen := false
    user := none
    mediaSettings :=
      { constraints := if truthy p.constraints then p.constraints else defaultConstraints
        servers := if truthy p.servers then p.servers else defaultServers } }

/-- webrtc.Client.connect (client.js lines 98-101): delegates to the
signaling channel's open — whose outcome is supplied by the environment and
recorded in sigOpen — then sets connected true unconditionally. -/
def ClientState.connect (c : ClientState) (openOutcome : Bool) : ClientState :=
  { c with sigOpen := openOutcome, connected := true }

/-- webrtc.Client.disconnect (client.js lines 108-111): closes the
signaling channel and sets connected false. -/
def ClientState.disconnect (c : ClientState) : ClientState :=
  { c with sigOpen := false, connected := false }

/-- webrtc.Client.isConnected (client.js lines 173-175): the connected flag
coerced to boolean. -/
def ClientState.isConnected (c : ClientState) : Bool :=
  c.connected

/-- webrtc.Client.isLoggedIn (client.js lines 183-188). -/
def ClientState.isLoggedIn (c : ClientState) : Bool :=
  match c.user with
  | some u => u.getUserSession.isLoggedIn
  | none => false

/-- webrtc.Client.login (client.js lines 134-145), identical in body to
webrtc.Mercury.login (part_000 lines 169-180): obtains the identity
provider's promise, attaches a continuation that on fulfillment marks the
user online and stores it as that.user and on rejection only logs, and
returns the provider's promise itself.  Returns the state after the
continuation has run together with the returned promise. -/
def ClientState.login (c : ClientState) (userPromise : UserPromise) :
    ClientState × UserPromise :=
  match userPromise.outcome with
  | .ok user => ({ c with user := some user.setOnline }, userPromise)
  | .error _ => (c, userPromise)

/-- webrtc.Client.logout (client.js lines 155-164): no-op when that.user is
null; otherwise, when usernames is omitted or the JavaScript test
userSession.userAccount in usernames holds, issues identityProvider.logout
for the session and sets its loggedIn flag false.  The second component
lists the (account, token) calls issued to the identity provider. -/
def ClientState.logout (c : ClientState) (usernames : Option (List String)) :
    ClientState × List (String × String) :=
  match c.user with
  | none => (c, [])
  | some u =>
    let s := u.getUserSession
    if usernames.isNone || jsArrayIn s.userAccount (usernames.getD []) then
      ({ c with user := some { u with session := { s with loggedIn := false } } },
        [(s.userAccount, s.token)])
    else
      (c, [])

/-- webrtc.Client.getMediaSettings (client.js lines 197-199). -/
def ClientState.getMediaSettings (c : ClientState) : MediaSettings :=
  c.mediaSettings

/-- webrtc.Client.setDefaultMediaSettings (client.js lines 207-215):
replaces constraints and/or servers independently when the corresponding
field of the settings object is truthy. -/
def ClientState.setDefaultMediaSettings (c : ClientState) (settings : JSVal) : ClientState :=
  let s := if truthy settings then settings else JSVal.obj []
  let c1 :=
    if truthy (s.getField "constraints") then
      { c with mediaSettings := { c.mediaSettings with constraints := s.getField "constraints" } }
    else c
  if truthy (s.getField "servers") then
    { c1 with mediaSettings := { c1.mediaSettings with servers := s.getField "servers" } }
  else c1

/-- One step of the connection lifecycle: a connect call (with the
environment's outcome for the signaling channel's open) or a disconnect. -/
inductive ConnOp where
  | connect (openOutcome : Bool)
  | disconnect

/-- Whether a lifecycle step is a connect call. -/
def ConnOp.isConnect : ConnOp → Bool
  | .connect _ => true
  | .disconnect => false

/-- Apply one connection-lifecycle step to a façade. -/
def applyConnOp (c : ClientState) : ConnOp → ClientState
  | .connect outc => c.connect outc
  | .disconnect => c.disconnect

/-- Apply a sequence of connection-lifecycle steps, oldest first. -/
def applyConnOps (c : ClientState) (ops : List ConnOp) : ClientState :=
  ops.foldl applyConnOp c

/-- Default mediaSettings of webrtc.Mercury, held in a constructor-local
variable (part_000 lines 64-78). -/
def mercuryLocalMediaSettings : MediaSettings :=
  { constraints := .obj [
      ("video", .bool true),
      ("audio", .bool true),
      ("optional", .arr []),
      ("mandatory", .obj [])]
    servers := .obj [("iceServers", .arr [
      .obj [("url", .str "turn:toto@174.129.201.5:3478"), ("credential", .str "password")]])] }

/-- The state of one webrtc.Mercury façade (src/unnamed/part_000).  The
constructor keeps its mediaSettings in a local variable and never assigns
it to the object, so the object property that.mediaSettings — which the
accessors read and write — is a separate, initially absent field.  The
configuration options copied onto the object by the base class carry none
of the fields the claims observe, in particular no mediaSettings. -/
structure MercuryState where
  connected : Bool
  user : Option User
  userSessions : List UserSession
  localMediaSettings : MediaSettings
  thatMediaSettings : Option MediaSettings

/-- webrtc.Mercury construction (part_000 lines 37-133): connected false,
user null, userSessions empty, the local mediaSettings variable at its
hard-coded default, and no mediaSettings property on the object. -/
def MercuryState.init (_p : Params) : MercuryState :=
  { connected := false
    user := none
    userSessions := []
    localMediaSettings := mercuryLocalMediaSettings
    thatMediaSettings := none }

/-- webrtc.Mercury.getDefaultMediaSettings (part_000 lines 260-262):
returns that.mediaSettings, which the constructor never set — undefined. -/
def MercuryState.getDefaultMediaSettings (m : MercuryState) : Option MediaSettings :=
  m.thatMediaSettings

/-- webrtc.Mercury.setDefaultMediaSettings (part_000 lines 270-278):
assigns that.mediaSettings.constraints and/or that.mediaSettings.servers
when the corresponding settings field is truthy.  When that.mediaSettings
is undefined the property assignment faults with a TypeError. -/
def MercuryState.setDefaultMediaSettings (m : MercuryState) (settings : JSVal) :
    Except String MercuryState := do
  let s := if truthy settings then settings else JSVal.obj []
  let m1 ←
    if truthy (s.getField "constraints") then
      match m.thatMediaSettings with
      | none => Except.error "TypeError: cannot set property of undefined"
      | some ms =>
        pure { m with
               thatMediaSettings := some { ms with constraints := s.getField "constraints" } }
    else pure m
  if truthy (s.getField "servers") then
    match m1.thatMediaSettings with
    | none => Except.error "TypeError: cannot set property of undefined"
    | some ms =>
      pure { m1 with thatMediaSettings := some { ms with servers := s.getField "servers" } }
  else pure m1

/-- webrtc.Mercury.logout (part_000 lines 196-215).  The loop body's first
test reads the identifier username, which is declared nowhere (the
parameter is usernames), so any iteration faults with a ReferenceError;
with no sessions the loop body never runs, no indexes were collected, and
that.user is set to null because userSessions.length is 0.  (The loop-free
global write blahblah = 1 touches no façade state and is not modelled.) -/
def MercuryState.logout (m : MercuryState) (_usernames : Option (List String)) :
    Except String MercuryState :=
  match m.userSessions with
  | [] => Except.ok { m with user := none }
  | _ :: _ => Except.error "ReferenceError: username is not defined"

/-- The process-wide module state of src/brightstream.js: the instance
registry mapping id strings to façades.  Façades are stored by serial
number (their index in clients, in construction order) so that instance
identity is expressible; property assignment that overwrites an existing
key is modelled by prepending, with lookup finding the newest entry. -/
structure World where
  instances : List (String × Nat)
  clients : List ClientState

/-- The module state before any façade is constructed. -/
def World.empty : World :=
  { instances := [], clients := [] }

/-- brightstream.makeUniqueID (src/brightstream.js lines 118-121):
Math.floor(Math.random() * 100000000).  The random draw is the explicit
argument; the result is its value in [0, 100000000). -/
def makeUniqueID (randomDraw : Nat) : Nat :=
  randomDraw % 100000000

/-- Façade construction as registration (client.js lines 25-27): generate
an id from the random draw, register the new façade under that id —
overwriting any previous holder of the id — and append the façade's state.
Returns the new module state and the generated id. -/
def constructClient (w : World) (p : Params) (randomDraw : Nat) : World × String :=
  let id := toString (makeUniqueID randomDraw)
  ({ instances := (id, w.clients.length) :: w.instances
     clients := w.clients ++ [ClientState.init p] }, id)

/-- brightstream.getClient (src/brightstream.js lines 80-89): looks the id
up in the registry, returning the registered façade's serial or none
(undefined); an unspecified id is coerced to the property key "undefined"
by the lookup.  Unknown and unspecified ids are only logged; the function
is total and never throws. -/
def getClient (w : World) (id : Option String) : Option Nat :=
  w.instances.lookup (id.getD "undefined")

/-! Theorems -/

/-- Helper: an association-list lookup misses when no entry carries the key. -/
theorem lookup_eq_none_of_keys_ne {l : List (String × Nat)} {key : String}
    (h : ∀ e ∈ l, e.1 ≠ key) : l.lookup key = none := by
  induction l with
  | nil => rfl
  | cons hd tl ih =>
    obtain ⟨k, v⟩ := hd
    have hk : k ≠ key := h (k, v) (List.mem_cons_self _ _)
    have hb : (key == k) = false := beq_eq_false_iff_ne.mpr (Ne.symm hk)
    simp only [List.lookup_cons, hb]
    exact ih fun e he => h e (List.mem_cons_of_mem _ he)

/-- C1: immediately after construction isConnected() is false, and after any
interleaving of connect/disconnect calls — whatever the outcome each connect
records for the signaling channel's open — isConnected() matches the most
recent call: true exactly when it was a connect. -/
theorem connected_state_machine (p : Params) (ops : List ConnOp) (op : ConnOp) :
    (ClientState.init p).isConnected = false ∧
    (applyConnOps (ClientState.init p) (ops ++ [op])).isConnected = op.isConnect := by
  constructor
  · rfl
  · rw [applyConnOps, List.foldl_append]
    cases op <;> rfl

/-- C8: constructing with appId "a1" and constraints with video true and
audio false yields getMediaSettings().constraints equal to the configured
constraints and getMediaSettings().servers equal to the built-in default
ICE server list. -/
theorem construct_with_constraints_scenario :
    (ClientState.init
        { appId := .str "a1",
          constraints := .obj [("video", .bool true), ("audio", .bool false)] }
      ).getMediaSettings.constraints
        = JSVal.obj [("video", .bool true), ("audio", .bool false)] ∧
    (ClientState.init
        { appId := .str "a1",
          constraints := .obj [("video", .bool true), ("audio", .bool false)] }
      ).getMediaSettings.servers = defaultServers :=
  ⟨rfl, rfl⟩

/-- C7: for every façade and prior media-settings state,
setDefaultMediaSettings with only a constraints value replaces constraints
and leaves servers at its prior value, and conversely with only a servers
value. -/
theorem setDefaultMediaSettings_frame (c : ClientState) (x y : JSVal)
    (hx : truthy x = true) (hy : truthy y = true) :
    ((c.setDefaultMediaSettings (.obj [("constraints", x)])).getMediaSettings.constraints = x ∧
      (c.setDefaultMediaSettings (.obj [("constraints", x)])).getMediaSettings.servers
        = c.getMediaSettings.servers) ∧
    ((c.setDefaultMediaSettings (.obj [("servers", y)])).getMediaSettings.servers = y ∧
      (c.setDefaultMediaSettings (.obj [("servers", y)])).getMediaSettings.constraints
        = c.getMediaSettings.constraints) := by
  have hta : truthy (JSVal.obj [("constraints", x)]) = true := rfl
  have htb : truthy (JSVal.obj [("servers", y)]) = true := rfl
  have h1 : (JSVal.obj [("constraints", x)]).getField "constraints" = x := rfl
  have h2 : (JSVal.obj [("constraints", x)]).getField "servers" = JSVal.undefined := rfl
  have h3 : (JSVal.obj [("servers", y)]).getField "servers" = y := rfl
  have h4 : (JSVal.obj [("servers", y)]).getField "constraints" = JSVal.undefined := rfl
  have hu : truthy JSVal.undefined = false := rfl
  refine ⟨⟨?_, ?_⟩, ?_, ?_⟩ <;>
    simp only [ClientState.setDefaultMediaSettings, ClientState.getMediaSettings,
      hta, htb, h1, h2, h3, h4, hu, hx, hy, if_true, Bool.false_eq_true, if_false]

/-- C7 witness at a concrete façade and concrete truthy settings values. -/
theorem setDefaultMediaSettings_frame_witness :
    truthy (JSVal.bool true) = true ∧ truthy (JSVal.num 2) = true ∧
    (((ClientState.init {}).setDefaultMediaSettings
        (.obj [("constraints", JSVal.bool true)])).getMediaSettings.constraints
          = JSVal.bool true ∧
      ((ClientState.init {}).setDefaultMediaSettings
        (.obj [("constraints", JSVal.bool true)])).getMediaSettings.servers
          = (ClientState.init {}).getMediaSettings.servers) ∧
    (((ClientState.init {}).setDefaultMediaSettings
        (.obj [("servers", JSVal.num 2)])).getMediaSettings.servers = JSVal.num 2 ∧
      ((ClientState.init {}).setDefaultMediaSettings
        (.obj [("servers", JSVal.num 2)])).getMediaSettings.constraints
          = (ClientState.init {}).getMediaSettings.constraints) :=
  ⟨rfl, rfl, setDefaultMediaSettings_frame (ClientState.init {}) (JSVal.bool true)
    (JSVal.num 2) rfl rfl⟩

/-- C2: immediately after a façade is constructed, getClient with its id
returns exactly the façade registered at construction (the one appended at
index clients.length of the prior state); for an id never assigned, and for
an unspecified id when no entry carries the coerced key, getClient returns
none — and it is a total function, so it only logs and never throws. -/
theorem getClient_returns_registered (w : World) (p : Params) (r : Nat) (freshId : String)
    (hfresh : ∀ e ∈ w.instances, e.1 ≠ freshId)
    (hundef : ∀ e ∈ w.instances, e.1 ≠ "undefined") :
    getClient (constructClient w p r).1 (some (constructClient w p r).2)
        = some w.clients.length ∧
    getClient w (some freshId) = none ∧
    getClient w none = none := by
  refine ⟨?_, ?_, ?_⟩
  · simp [getClient, constructClient]
  · exact lookup_eq_none_of_keys_ne hfresh
  · exact lookup_eq_none_of_keys_ne hundef

/-- C2 witness: a façade constructed in the empty module state is found
under its id, and an unknown or unspecified id yields none. -/
theorem getClient_returns_registered_witness :
    getClient (constructClient World.empty {} 42).1 (some (constructClient World.empty {} 42).2)
        = some 0 ∧
    getClient World.empty (some "nope") = none ∧
    getClient World.empty none = none :=
  getClient_returns_registered World.empty {} 42 "nope"
    (by intro e he; cases he) (by intro e he; cases he)

/-- C9 counterexample: ids are pseudo-random draws, so two façades
constructed in sequence can receive the SAME id — with draws 5 and 5 both
ids are "5", refuting distinctness, and getClient on the first façade's id
returns the second façade (serial 1), not the first (serial 0). -/
theorem duplicate_ids_counterexample :
    (constructClient World.empty {} 5).2
        = (constructClient (constructClient World.empty {} 5).1 {} 5).2 ∧
    getClient (constructClient (constructClient World.empty {} 5).1 {} 5).1
        (some (constructClient World.empty {} 5).2) = some 1 ∧
    (1 : Nat) ≠ 0 := by
  refine ⟨rfl, ?_, by decide⟩
  simp [getClient, constructClient, World.empty, makeUniqueID]

/-- C9 amended: for two façades constructed in sequence, WHENEVER the two
generated ids are distinct (randomness does not guarantee this), getClient
on each id returns that façade's own instance — serial 0 for the first,
serial 1 for the second. -/
theorem distinct_ids_own_instances (p1 p2 : Params) (r1 r2 : Nat)
    (h : (constructClient World.empty p1 r1).2
        ≠ (constructClient (constructClient World.empty p1 r1).1 p2 r2).2) :
    getClient (constructClient (constructClient World.empty p1 r1).1 p2 r2).1
        (some (constructClient World.empty p1 r1).2) = some 0 ∧
    getClient (constructClient (constructClient World.empty p1 r1).1 p2 r2).1
        (some (constructClient (constructClient World.empty p1 r1).1 p2 r2).2) = some 1 := by
  simp only [constructClient, World.empty] at h ⊢
  constructor
  · have hb : (toString (makeUniqueID r1) == toString (makeUniqueID r2)) = false :=
      beq_eq_false_iff_ne.mpr h
    simp [getClient, List.lookup_cons, hb]
  · simp [getClient, List.lookup_cons]

/-- C9 amended witness: draws 3 and 7 give distinct ids and each id
resolves to its own façade. -/
theorem distinct_ids_own_instances_witness :
    getClient (constructClient (constructClient World.empty {} 3).1 {} 7).1
        (some (constructClient World.empty {} 3).2) = some 0 ∧
    getClient (constructClient (constructClient World.empty {} 3).1 {} 7).1
        (some (constructClient (constructClient World.empty {} 3).1 {} 7).2) = some 1 :=
  distinct_ids_own_instances {} {} 3 7 (by decide)

/-- C3: when the identity provider's future is fulfilled with a user, the
façade stores that user marked online (the presence trigger) as its current
user, isLoggedIn() subsequently reflects that user's session, and login
returns the provider's own future unchanged. -/
theorem login_success_sets_user (c : ClientState) (p : UserPromise) (u : User)
    (h : p.outcome = Except.ok u) :
    (c.login p).1.user = some { u with online := true } ∧
    (c.login p).1.isLoggedIn = u.session.loggedIn ∧
    (c.login p).2 = p := by
  simp [ClientState.login, h, User.setOnline, ClientState.isLoggedIn,
    User.getUserSession, UserSession.isLoggedIn]

/-- C3 witness at a concrete façade and a fulfilled login future. -/
theorem login_success_sets_user_witness :
    ((ClientState.init {}).login
        ⟨0, Except.ok ⟨"u1", ⟨"alice", "tok", true⟩, false⟩⟩).1.user
      = some ⟨"u1", ⟨"alice", "tok", true⟩, true⟩ ∧
    ((ClientState.init {}).login
        ⟨0, Except.ok ⟨"u1", ⟨"alice", "tok", true⟩, false⟩⟩).1.isLoggedIn = true ∧
    ((ClientState.init {}).login
        ⟨0, Except.ok ⟨"u1", ⟨"alice", "tok", true⟩, false⟩⟩).2
      = ⟨0, Except.ok ⟨"u1", ⟨"alice", "tok", true⟩, false⟩⟩ :=
  login_success_sets_user (ClientState.init {})
    ⟨0, Except.ok ⟨"u1", ⟨"alice", "tok", true⟩, false⟩⟩
    ⟨"u1", ⟨"alice", "tok", true⟩, false⟩ rfl

/-- C4: when the identity provider's future is rejected, the façade's state
— in particular its current user and isLoggedIn() — is unchanged, login
still returns the provider's own future unchanged, and that future still
carries the rejection (the logging continuation does not suppress it);
login is total, so no error reaches the caller through any other channel. -/
theorem login_rejection_leaves_state (c : ClientState) (p : UserPromise) (e : String)
    (h : p.outcome = Except.error e) :
    (c.login p).1 = c ∧
    (c.login p).1.isLoggedIn = c.isLoggedIn ∧
    (c.login p).2 = p ∧
    (c.login p).2.outcome = Except.error e := by
  simp [ClientState.login, h]

/-- C4 witness at a concrete façade and a rejected login future. -/
theorem login_rejection_leaves_state_witness :
    ((ClientState.init {}).login ⟨1, Except.error "auth failed"⟩).1 = ClientState.init {} ∧
    ((ClientState.init {}).login ⟨1, Except.error "auth failed"⟩).1.isLoggedIn
      = (ClientState.init {}).isLoggedIn ∧
    ((ClientState.init {}).login ⟨1, Except.error "auth failed"⟩).2
      = ⟨1, Except.error "auth failed"⟩ ∧
    ((ClientState.init {}).login ⟨1, Except.error "auth failed"⟩).2.outcome
      = Except.error "auth failed" :=
  login_rejection_leaves_state (ClientState.init {}) ⟨1, Except.error "auth failed"⟩
    "auth failed" rfl

/-- C5, behavior at the failing input: logout uses the JavaScript property
test userAccount in usernames, not element membership.  With the current
session's account "alice" and logout(["alice"]), the session stays logged
in and no identity-provider logout is issued — contradicting the claim and
the method's own documentation; symmetrically, an account named "0" IS
logged out by a one-element list that does not contain it, because "0" is
an array index key. -/
theorem logout_in_operator_behavior :
    ((ClientState.logout
        { connected := true, sigOpen := true,
          user := some { uid := "u1",
                         session := { userAccount := "alice", token := "tok", loggedIn := true },
                         online := true },
          mediaSettings := { constraints := JSVal.undefined, servers := JSVal.undefined } }
        (some ["alice"])).1
      = { connected := true, sigOpen := true,
          user := some { uid := "u1",
                         session := { userAccount := "alice", token := "tok", loggedIn := true },
                         online := true },
          mediaSettings := { constraints := JSVal.undefined, servers := JSVal.undefined } }) ∧
    ((ClientState.logout
        { connected := true, sigOpen := true,
          user := some { uid := "u1",
                         session := { userAccount := "alice", token := "tok", loggedIn := true },
                         online := true },
          mediaSettings := { constraints := JSVal.undefined, servers := JSVal.undefined } }
        (some ["alice"])).2 = []) ∧
    ((ClientState.logout
        { connected := true, sigOpen := true,
          user := some { uid := "u2",
                         session := { userAccount := "0", token := "tok2", loggedIn := true },
                         online := true },
          mediaSettings := { constraints := JSVal.undefined, servers := JSVal.undefined } }
        (some ["bob"])).1.isLoggedIn = false) ∧
    ((ClientState.logout
        { connected := true, sigOpen := true,
          user := some { uid := "u2",
                         session := { userAccount := "0", token := "tok2", loggedIn := true },
                         online := true },
          mediaSettings := { constraints := JSVal.undefined, servers := JSVal.undefined } }
        (some ["bob"])).2 = [("0", "tok2")]) :=
  ⟨rfl, rfl, rfl, rfl⟩

/-- C6: logout on a façade with no current user is a no-op that issues no
identity-provider call and does not throw — for the Client variant, and for
the Mercury variant in its reachable states (no façade operation ever adds
to userSessions, so it stays empty; the loop body that would fault on the
undeclared identifier never runs). -/
theorem logout_no_user_noop (c : ClientState) (m : MercuryState)
    (u1 u2 : Option (List String))
    (hc : c.user = none) (hm : m.user = none) (hs : m.userSessions = []) :
    c.logout u1 = (c, []) ∧ m.logout u2 = Except.ok m := by
  constructor
  · simp [ClientState.logout, hc]
  · have h1 : m.logout u2 = Except.ok { m with user := none } := by
      simp [MercuryState.logout, hs]
    rw [h1, ← hm]

/-- C6 witness: freshly constructed Client and Mercury façades, with and
without a usernames argument. -/
theorem logout_no_user_noop_witness :
    (ClientState.init {}).logout none = (ClientState.init {}, []) ∧
    (MercuryState.init {}).logout (some ["x"]) = Except.ok (MercuryState.init {}) :=
  logout_no_user_noop (ClientState.init {}) (MercuryState.init {}) none (some ["x"])
    rfl rfl rfl

/-- C10: the Mercury accessors are disconnected from the stored settings —
construction leaves the object's mediaSettings property absent,
getDefaultMediaSettings() returns undefined on any such instance, and
setDefaultMediaSettings with a settings object carrying a (truthy)
constraints or servers field faults with a TypeError instead of updating. -/
theorem mercury_mediaSettings_detached (p : Params) (m : MercuryState) (settings : JSVal)
    (hm : m.thatMediaSettings = none)
    (hs : truthy (settings.getField "constraints") = true ∨
          truthy (settings.getField "servers") = true) :
    (MercuryState.init p).thatMediaSettings = none ∧
    m.getDefaultMediaSettings = none ∧
    ∃ e, m.setDefaultMediaSettings settings = Except.error e := by
  refine ⟨rfl, by simp [MercuryState.getDefaultMediaSettings, hm], ?_⟩
  have hst : truthy settings = true := by
    cases settings <;> first | rfl | simp [truthy, JSVal.getField] at hs
  by_cases h1 : truthy (settings.getField "constraints") = true
  · refine ⟨"TypeError: cannot set property of undefined", ?_⟩
    simp only [MercuryState.setDefaultMediaSettings, hst, h1, hm, eq_self_iff_true, if_true]
    rfl
  · have h2 : truthy (settings.getField "servers") = true := hs.resolve_left h1
    have h1f : truthy (settings.getField "constraints") = false := by
      revert h1; cases truthy (settings.getField "constraints") <;> simp
    refine ⟨"TypeError: cannot set property of undefined", ?_⟩
    simp only [MercuryState.setDefaultMediaSettings, hst, h1f, h2, hm, eq_self_iff_true,
      if_true, Bool.false_eq_true, if_false, pure_bind]

/-- C10 witness: a freshly constructed Mercury façade and a settings object
with a constraints field. -/
theorem mercury_mediaSettings_detached_witness :
    (MercuryState.init {}).thatMediaSettings = none ∧
    (MercuryState.init {}).getDefaultMediaSettings = none ∧
    ∃ e, (MercuryState.init {}).setDefaultMediaSettings
        (.obj [("constraints", .obj [("video", .bool false)])]) = Except.error e :=
  mercury_mediaSettings_detached {} (MercuryState.init {})
    (.obj [("constraints", .obj [("video", .bool false)])]) rfl (Or.inl rfl)

end Respoke
